import Mathlib

/-!
Verification of the rental-property calculator's valuation engine.

The engine is the pure calculation core of the source component: the
function `generateCashFlowSchedule` and the main calculation function
`calculateResults`, together with the down-payment unit conversions in
`handleInputChange`.  All arithmetic in the source is JavaScript number
(IEEE-754 double) arithmetic; we embed it with exact rationals standing in
for finite doubles (rounding error is not modelled), while the non-finite
values Infinity, -Infinity and NaN and their propagation through `+`, `-`,
`*`, `/`, `Math.pow`, `Math.max` and `>` are modelled faithfully.  The
decimal literals of the source (`1.02`, `0.20` etc.) denote their exact
rational values here.
-/

namespace RentalCalc

/-- Model of a JavaScript number: an exact rational standing in for a
finite double, or one of the non-finite values Infinity, -Infinity, NaN. -/
inductive JSNum where
  | fin (q : ℚ)
  | inf
  | ninf
  | nan
deriving DecidableEq, Repr

/-- JavaScript addition on `JSNum` (IEEE-754 special-value rules). -/
def jsAdd : JSNum → JSNum → JSNum
  | .fin a, .fin b => .fin (a + b)
  | .nan, _ => .nan
  | _, .nan => .nan
  | .inf, .ninf => .nan
  | .ninf, .inf => .nan
  | .inf, _ => .inf
  | _, .inf => .inf
  | .ninf, _ => .ninf
  | _, .ninf => .ninf

/-- JavaScript negation on `JSNum`. -/
def jsNeg : JSNum → JSNum
  | .fin a => .fin (-a)
  | .inf => .ninf
  | .ninf => .inf
  | .nan => .nan

/-- JavaScript subtraction: `a - b` is `a + (-b)` in IEEE-754. -/
def jsSub (a b : JSNum) : JSNum := jsAdd a (jsNeg b)

/-- JavaScript multiplication on `JSNum` (IEEE-754 special-value rules;
`Infinity * 0 = NaN`, otherwise signs propagate). -/
def jsMul : JSNum → JSNum → JSNum
  | .fin a, .fin b => .fin (a * b)
  | .nan, _ => .nan
  | _, .nan => .nan
  | .inf, .inf => .inf
  | .inf, .ninf => .ninf
  | .ninf, .inf => .ninf
  | .ninf, .ninf => .inf
  | .inf, .fin b => if b = 0 then .nan else if 0 < b then .inf else .ninf
  | .fin a, .inf => if a = 0 then .nan else if 0 < a then .inf else .ninf
  | .ninf, .fin b => if b = 0 then .nan else if 0 < b then .ninf else .inf
  | .fin a, .ninf => if a = 0 then .nan else if 0 < a then .ninf else .inf

/-- JavaScript division on `JSNum`.  Division of a nonzero finite value by
zero gives a signed infinity, `0 / 0` gives NaN, finite over infinite gives
zero, infinite over infinite gives NaN.  (The rational `0` stands for the
double `+0`; negative zero is not modelled.) -/
def jsDiv : JSNum → JSNum → JSNum
  | .fin a, .fin b =>
      if b = 0 then (if a = 0 then .nan else if 0 < a then .inf else .ninf)
      else .fin (a / b)
  | .nan, _ => .nan
  | _, .nan => .nan
  | .inf, .inf => .nan
  | .inf, .ninf => .nan
  | .ninf, .inf => .nan
  | .ninf, .ninf => .nan
  | .inf, .fin b => if 0 ≤ b then .inf else .ninf
  | .ninf, .fin b => if 0 ≤ b then .ninf else .inf
  | .fin _, .inf => .fin 0
  | .fin _, .ninf => .fin 0

/-- `Math.pow` restricted to natural exponents (the only use in the source:
the exponent is `amortizationPeriod * 12`). -/
def jsPow : JSNum → ℕ → JSNum
  | _, 0 => .fin 1
  | .fin q, n + 1 => .fin (q ^ (n + 1))
  | .inf, _ + 1 => .inf
  | .ninf, n + 1 => if (n + 1) % 2 = 0 then .inf else .ninf
  | .nan, _ + 1 => .nan

/-- `Math.max` on two `JSNum`s: NaN if either argument is NaN, otherwise
the larger value. -/
def jsMax : JSNum → JSNum → JSNum
  | .fin a, .fin b => .fin (max a b)
  | .nan, _ => .nan
  | _, .nan => .nan
  | .inf, _ => .inf
  | _, .inf => .inf
  | .ninf, x => x
  | x, .ninf => x

/-- The JavaScript strict comparison `a > b` (false whenever either side
is NaN). -/
def jsGt : JSNum → JSNum → Bool
  | .fin a, .fin b => decide (b < a)
  | .nan, _ => false
  | _, .nan => false
  | .inf, .inf => false
  | .inf, _ => true
  | .fin _, .inf => false
  | .fin _, .ninf => true
  | .ninf, _ => false

/-- `Math.round` on a finite value: round half away from zero toward
positive infinity, i.e. the floor of `q + 1/2`. -/
def jsRound (q : ℚ) : ℚ := ((⌊q + 1 / 2⌋ : ℤ) : ℚ)

/-- The two interpretations of the `downPayment` input field. -/
inductive DownPaymentType where
  | amount
  | percent
deriving DecidableEq, Repr

/-- The input record of the calculator (the numeric fields of the `inputs`
state, lines 17-63 of the source).  All fields are finite numbers, as
produced by the UI's text-to-number coercion; `amortizationPeriod` is a
natural number (the spec constrains it to a positive integer of years, and
it is used as the exponent of `Math.pow`). -/
structure Inputs where
  purchasePrice : ℚ
  downPayment : ℚ
  downPaymentType : DownPaymentType
  closingCosts : ℚ
  renovationCosts : ℚ
  interestRate : ℚ
  amortizationPeriod : ℕ
  term : ℚ
  monthlyRent : ℚ
  vacancyRate : ℚ
  annualRentIncrease : ℚ
  propertyTaxes : ℚ
  insurance : ℚ
  condoFees : ℚ
  propertyManagement : ℚ
  maintenance : ℚ
  utilities : ℚ
  otherExpenses : ℚ
deriving DecidableEq, Repr

/-- One yearly record of the cash-flow schedule (lines 227-233). -/
structure CashFlowEntry where
  year : ℕ
  rentalIncome : JSNum
  operatingExpenses : JSNum
  mortgagePayment : JSNum
  cashFlow : JSNum
deriving DecidableEq, Repr

/-- The result record of the calculator (the `results` state, lines 66-108;
`downPaymentPercent` is set to the effective percentage
`actualDownPaymentPercent`, line 336). -/
structure Results where
  mortgageAmount : JSNum
  downPaymentPercent : JSNum
  totalMortgage : JSNum
  monthlyPayment : JSNum
  monthlyRentAfterVacancy : JSNum
  monthlyExpenses : JSNum
  monthlyCashFlow : JSNum
  annualCashFlow : JSNum
  totalMonthlyExpenses : JSNum
  cashOnCash : JSNum
  capRate : JSNum
  grossRentMultiplier : JSNum
  breakEvenOccupancy : JSNum
  netOperatingIncome : JSNum
  expenseRatio : JSNum
  cashFlowSchedule : List CashFlowEntry
deriving DecidableEq, Repr

/-- The `for (let year = 1; year <= 30; year++)` loop of
`generateCashFlowSchedule` (lines 222-240), as a recursion on the number of
remaining years.  Each iteration pushes one entry and then multiplies the
running annual rent by `1 + annualRentIncrease / 100` and the running
annual operating expenses by `1.02` (the fixed 2 percent inflation
assumption, line 239). -/
def scheduleLoop (annualMortgagePayment : JSNum) (annualRentIncrease : ℚ)
    (year : ℕ) (count : ℕ) (annualRent annualOperatingExpenses : JSNum) :
    List CashFlowEntry :=
  match count with
  | 0 => []
  | count + 1 =>
    { year := year
      rentalIncome := annualRent
      operatingExpenses := annualOperatingExpenses
      mortgagePayment := annualMortgagePayment
      cashFlow := jsSub (jsSub annualRent annualOperatingExpenses)
        annualMortgagePayment } ::
    scheduleLoop annualMortgagePayment annualRentIncrease (year + 1) count
      (jsMul annualRent
        (jsAdd (JSNum.fin 1) (jsDiv (JSNum.fin annualRentIncrease) (JSNum.fin 100))))
      (jsMul annualOperatingExpenses (JSNum.fin (102 / 100)))

/-- `generateCashFlowSchedule` (lines 185-246): computes the fixed monthly
mortgage payment (zero-interest branch divides the principal evenly,
otherwise the standard amortization formula) and the 30-year schedule.
Returns the pair `(cashFlowSchedule, monthlyPayment)` of the source's
result object. -/
def generateCashFlowSchedule (principal : JSNum) (annualInterestRate : ℚ)
    (amortizationYears : ℕ) (monthlyRentAfterVacancy : JSNum)
    (monthlyOperatingExpenses : JSNum) (annualRentIncrease : ℚ) :
    List CashFlowEntry × JSNum :=
  let monthlyInterestRate :=
    jsDiv (jsDiv (JSNum.fin annualInterestRate) (JSNum.fin 100)) (JSNum.fin 12)
  let totalPayments := amortizationYears * 12
  let monthlyPayment :=
    if annualInterestRate = 0 then
      jsDiv principal (JSNum.fin (totalPayments : ℚ))
    else
      jsDiv
        (jsMul principal
          (jsMul monthlyInterestRate
            (jsPow (jsAdd (JSNum.fin 1) monthlyInterestRate) totalPayments)))
        (jsSub (jsPow (jsAdd (JSNum.fin 1) monthlyInterestRate) totalPayments)
          (JSNum.fin 1))
  let annualMortgagePayment := jsMul monthlyPayment (JSNum.fin 12)
  (scheduleLoop annualMortgagePayment annualRentIncrease 1 30
      (jsMul monthlyRentAfterVacancy (JSNum.fin 12))
      (jsMul monthlyOperatingExpenses (JSNum.fin 12)),
   monthlyPayment)

/-- Local `downPaymentAmount` of `calculateResults` (lines 254-261): the
stated down-payment amount under the current interpretation.  (The sibling
local `downPaymentPercent` of lines 257/259 is dead code, unused by every
later line, and is not modelled.) -/
def downPaymentAmount (i : Inputs) : JSNum :=
  match i.downPaymentType with
  | .amount => JSNum.fin i.downPayment
  | .percent =>
      jsDiv (jsMul (JSNum.fin i.purchasePrice) (JSNum.fin i.downPayment))
        (JSNum.fin 100)

/-- Local `minimumDownPayment` (line 265): 20 percent of the purchase
price, written `(minimumDownPaymentPercent / 100) * purchasePrice` with
`minimumDownPaymentPercent = 20`. -/
def minimumDownPayment (i : Inputs) : JSNum :=
  jsMul (jsDiv (JSNum.fin 20) (JSNum.fin 100)) (JSNum.fin i.purchasePrice)

/-- Local `actualDownPayment` (line 266): the stated amount floored at the
20 percent minimum via `Math.max`. -/
def actualDownPayment (i : Inputs) : JSNum :=
  jsMax (downPaymentAmount i) (minimumDownPayment i)

/-- Local `actualDownPaymentPercent` (line 267). -/
def actualDownPaymentPercent (i : Inputs) : JSNum :=
  jsMul (jsDiv (actualDownPayment i) (JSNum.fin i.purchasePrice)) (JSNum.fin 100)

/-- Local `mortgageAmount` (line 270). -/
def mortgageAmount (i : Inputs) : JSNum :=
  jsSub (JSNum.fin i.purchasePrice) (actualDownPayment i)

/-- Local `monthlyRentAfterVacancy` (line 275). -/
def monthlyRentAfterVacancy (i : Inputs) : JSNum :=
  jsMul (JSNum.fin i.monthlyRent)
    (jsSub (JSNum.fin 1) (jsDiv (JSNum.fin i.vacancyRate) (JSNum.fin 100)))

/-- Local `monthlyOperatingExpenses` (lines 278-288): monthly property
taxes and insurance, condo fees, management and maintenance fees as
percentages of gross monthly rent, utilities and other expenses. -/
def monthlyOperatingExpenses (i : Inputs) : JSNum :=
  jsAdd
    (jsAdd
      (jsAdd
        (jsAdd
          (jsAdd
            (jsAdd (jsDiv (JSNum.fin i.propertyTaxes) (JSNum.fin 12))
              (jsDiv (JSNum.fin i.insurance) (JSNum.fin 12)))
            (JSNum.fin i.condoFees))
          (jsDiv (jsMul (JSNum.fin i.monthlyRent) (JSNum.fin i.propertyManagement))
            (JSNum.fin 100)))
        (jsDiv (jsMul (JSNum.fin i.monthlyRent) (JSNum.fin i.maintenance))
          (JSNum.fin 100)))
      (JSNum.fin i.utilities))
    (JSNum.fin i.otherExpenses)

/-- Local `cashFlowData` (lines 291-298): the call to
`generateCashFlowSchedule`. -/
def cashFlowData (i : Inputs) : List CashFlowEntry × JSNum :=
  generateCashFlowSchedule (mortgageAmount i) i.interestRate
    i.amortizationPeriod (monthlyRentAfterVacancy i)
    (monthlyOperatingExpenses i) i.annualRentIncrease

/-- Local `monthlyPayment` (line 300). -/
def monthlyPayment (i : Inputs) : JSNum := (cashFlowData i).2

/-- Local `totalMonthlyExpenses` (line 303). -/
def totalMonthlyExpenses (i : Inputs) : JSNum :=
  jsAdd (monthlyOperatingExpenses i) (monthlyPayment i)

/-- Local `monthlyCashFlow` (line 306). -/
def monthlyCashFlow (i : Inputs) : JSNum :=
  jsSub (monthlyRentAfterVacancy i) (totalMonthlyExpenses i)

/-- Local `annualCashFlow` (line 307). -/
def annualCashFlow (i : Inputs) : JSNum :=
  jsMul (monthlyCashFlow i) (JSNum.fin 12)

/-- Local `initialInvestment` (lines 310-312). -/
def initialInvestment (i : Inputs) : JSNum :=
  jsAdd (jsAdd (actualDownPayment i) (JSNum.fin i.closingCosts))
    (JSNum.fin i.renovationCosts)

/-- Local `cashOnCash` (line 314): guarded by `initialInvestment > 0`. -/
def cashOnCash (i : Inputs) : JSNum :=
  if jsGt (initialInvestment i) (JSNum.fin 0) then
    jsMul (jsDiv (annualCashFlow i) (initialInvestment i)) (JSNum.fin 100)
  else JSNum.fin 0

/-- Local `netOperatingIncome` (lines 317-319). -/
def netOperatingIncome (i : Inputs) : JSNum :=
  jsSub (jsMul (monthlyRentAfterVacancy i) (JSNum.fin 12))
    (jsMul (monthlyOperatingExpenses i) (JSNum.fin 12))

/-- Local `capRate` (line 322). -/
def capRate (i : Inputs) : JSNum :=
  jsMul (jsDiv (netOperatingIncome i) (JSNum.fin i.purchasePrice)) (JSNum.fin 100)

/-- Local `grossRentMultiplier` (line 325). -/
def grossRentMultiplier (i : Inputs) : JSNum :=
  jsDiv (JSNum.fin i.purchasePrice) (jsMul (JSNum.fin i.monthlyRent) (JSNum.fin 12))

/-- Local `expenseRatio` (line 328). -/
def expenseRatio (i : Inputs) : JSNum :=
  jsMul
    (jsDiv (jsMul (monthlyOperatingExpenses i) (JSNum.fin 12))
      (jsMul (JSNum.fin i.monthlyRent) (JSNum.fin 12)))
    (JSNum.fin 100)

/-- Local `breakEvenOccupancy` (line 331). -/
def breakEvenOccupancy (i : Inputs) : JSNum :=
  jsMul (jsDiv (totalMonthlyExpenses i) (JSNum.fin i.monthlyRent)) (JSNum.fin 100)

/-- `calculateResults` (lines 249-354): the engine's single operation.  It
is total -- the source performs no input validation and has no error
branch; it always assembles a full result record (the `setResults` call of
lines 334-353). -/
def calculateResults (i : Inputs) : Results :=
  { mortgageAmount := mortgageAmount i
    downPaymentPercent := actualDownPaymentPercent i
    totalMortgage := mortgageAmount i
    monthlyPayment := monthlyPayment i
    monthlyRentAfterVacancy := monthlyRentAfterVacancy i
    monthlyExpenses := monthlyOperatingExpenses i
    monthlyCashFlow := monthlyCashFlow i
    annualCashFlow := annualCashFlow i
    totalMonthlyExpenses := totalMonthlyExpenses i
    cashOnCash := cashOnCash i
    capRate := capRate i
    grossRentMultiplier := grossRentMultiplier i
    breakEvenOccupancy := breakEvenOccupancy i
    netOperatingIncome := netOperatingIncome i
    expenseRatio := expenseRatio i
    cashFlowSchedule := (cashFlowData i).1 }

/-- The amount-to-percent conversion applied by `handleInputChange` when
the down-payment type is switched to `percent` (line 159):
`Math.round((downPayment / purchasePrice) * 100)`.  Rational division is
used; the claim about this conversion assumes `purchasePrice > 0`, under
which it agrees with the JavaScript value. -/
def downPaymentToPercent (purchasePrice downPayment : ℚ) : ℚ :=
  jsRound (downPayment / purchasePrice * 100)

/-- The percent-to-amount conversion applied by `handleInputChange` when
the down-payment type is switched to `amount` (line 161):
`Math.round(purchasePrice * (downPayment / 100) / 100) * 100`. -/
def downPaymentToAmount (purchasePrice downPayment : ℚ) : ℚ :=
  jsRound (purchasePrice * (downPayment / 100) / 100) * 100

/-- Modelled from the spec (section 4.1): the stated down-payment amount,
`downPayment` itself under the `amount` interpretation and
`purchasePrice * downPayment / 100` under the `percent` interpretation.
Used to compare the engine's values with the spec's formulas. -/
def statedDownPayment (i : Inputs) : ℚ :=
  match i.downPaymentType with
  | .amount => i.downPayment
  | .percent => i.purchasePrice * i.downPayment / 100

/-- Modelled from the spec (section 4.4): `monthlyRent * (1 - vacancyRate/100)`. -/
def specMonthlyRentAfterVacancy (i : Inputs) : ℚ :=
  i.monthlyRent * (1 - i.vacancyRate / 100)

/-- Modelled from the spec (section 4.3): the operating-expense sum
`propertyTaxes/12 + insurance/12 + condoFees + monthlyRent*propertyManagement/100
+ monthlyRent*maintenance/100 + utilities + otherExpenses`. -/
def specMonthlyOperatingExpenses (i : Inputs) : ℚ :=
  i.propertyTaxes / 12 + i.insurance / 12 + i.condoFees +
    i.monthlyRent * i.propertyManagement / 100 +
    i.monthlyRent * i.maintenance / 100 + i.utilities + i.otherExpenses

/-! Section: Basic facts about the JavaScript-number operations -/

@[simp] lemma jsAdd_fin (a b : ℚ) : jsAdd (.fin a) (.fin b) = .fin (a + b) := rfl

@[simp] lemma jsNeg_fin (a : ℚ) : jsNeg (.fin a) = .fin (-a) := rfl

@[simp] lemma jsSub_fin (a b : ℚ) : jsSub (.fin a) (.fin b) = .fin (a - b) := by
  simp [jsSub, sub_eq_add_neg]

@[simp] lemma jsMul_fin (a b : ℚ) : jsMul (.fin a) (.fin b) = .fin (a * b) := rfl

@[simp] lemma jsMax_fin (a b : ℚ) : jsMax (.fin a) (.fin b) = .fin (max a b) := rfl

lemma jsDiv_fin (a b : ℚ) (h : b ≠ 0) : jsDiv (.fin a) (.fin b) = .fin (a / b) := by
  simp [jsDiv, h]

@[simp] lemma jsDiv_fin_twelve (a : ℚ) : jsDiv (.fin a) (.fin 12) = .fin (a / 12) :=
  jsDiv_fin a 12 (by norm_num)

@[simp] lemma jsDiv_fin_hundred (a : ℚ) : jsDiv (.fin a) (.fin 100) = .fin (a / 100) :=
  jsDiv_fin a 100 (by norm_num)

@[simp] lemma jsPow_fin (q : ℚ) (n : ℕ) : jsPow (.fin q) n = .fin (q ^ n) := by
  cases n <;> simp [jsPow]

@[simp] lemma jsGt_fin (a b : ℚ) : jsGt (.fin a) (.fin b) = decide (b < a) := rfl

lemma jsMul_comm (a b : JSNum) : jsMul a b = jsMul b a := by
  cases a <;> cases b <;> simp [jsMul, mul_comm]

lemma jsDiv_fin_zero_pos (a : ℚ) (h : 0 < a) : jsDiv (.fin a) (.fin 0) = .inf := by
  simp [jsDiv, h, h.ne']

lemma jsMul_inf_fin_pos (b : ℚ) (h : 0 < b) : jsMul .inf (.fin b) = .inf := by
  simp [jsMul, h, h.ne']

/-- `Math.round` is within a half of its argument. -/
lemma abs_jsRound_sub_le (q : ℚ) : |jsRound q - q| ≤ 1 / 2 := by
  rw [abs_le]
  constructor
  · have h := Int.lt_floor_add_one (q + 1 / 2)
    rw [jsRound]
    push_cast at h ⊢
    linarith
  · have h := Int.floor_le (q + 1 / 2)
    rw [jsRound]
    push_cast at h ⊢
    linarith

/-! Section: Helper equations for the engine's intermediate values.

Each lemma evaluates one of the modelled locals of `calculateResults` to a
finite value; they are shared by the claim theorems below. -/

lemma downPaymentAmount_eq (i : Inputs) :
    downPaymentAmount i = .fin (statedDownPayment i) := by
  cases h : i.downPaymentType <;>
    simp [downPaymentAmount, statedDownPayment, h]

lemma actualDownPayment_eq (i : Inputs) :
    actualDownPayment i =
      .fin (max (statedDownPayment i) (20 / 100 * i.purchasePrice)) := by
  simp [actualDownPayment, downPaymentAmount_eq, minimumDownPayment]

lemma mortgageAmount_eq (i : Inputs) :
    mortgageAmount i =
      .fin (i.purchasePrice - max (statedDownPayment i) (20 / 100 * i.purchasePrice)) := by
  simp [mortgageAmount, actualDownPayment_eq]

lemma actualDownPaymentPercent_eq (i : Inputs) (h : i.purchasePrice ≠ 0) :
    actualDownPaymentPercent i =
      .fin (max (statedDownPayment i) (20 / 100 * i.purchasePrice) / i.purchasePrice * 100) := by
  simp [actualDownPaymentPercent, actualDownPayment_eq, jsDiv_fin _ _ h]

lemma monthlyRentAfterVacancy_eq (i : Inputs) :
    monthlyRentAfterVacancy i = .fin (specMonthlyRentAfterVacancy i) := by
  simp [monthlyRentAfterVacancy, specMonthlyRentAfterVacancy]

lemma monthlyOperatingExpenses_eq (i : Inputs) :
    monthlyOperatingExpenses i = .fin (specMonthlyOperatingExpenses i) := by
  simp [monthlyOperatingExpenses, specMonthlyOperatingExpenses]

lemma initialInvestment_eq (i : Inputs) :
    initialInvestment i =
      .fin (max (statedDownPayment i) (20 / 100 * i.purchasePrice) +
        i.closingCosts + i.renovationCosts) := by
  simp [initialInvestment, actualDownPayment_eq, add_assoc]

/-- Closed form of the schedule loop on finite running values: entry `k`
(zero-based) carries year `year + k`, the initial rent and expenses grown
by their respective factors `k` times, the constant annual mortgage
payment, and the difference of the three. -/
lemma scheduleLoop_eq (amp : JSNum) (inc : ℚ) (year count : ℕ) (r e : ℚ) :
    scheduleLoop amp inc year count (.fin r) (.fin e) =
      (List.range count).map (fun k =>
        { year := year + k
          rentalIncome := .fin (r * (1 + inc / 100) ^ k)
          operatingExpenses := .fin (e * (102 / 100) ^ k)
          mortgagePayment := amp
          cashFlow := jsSub (jsSub (.fin (r * (1 + inc / 100) ^ k))
            (.fin (e * (102 / 100) ^ k))) amp }) := by
  induction count generalizing year r e with
  | zero => simp [scheduleLoop]
  | succ n ih =>
    rw [List.range_succ_eq_map, List.map_cons, List.map_map, scheduleLoop]
    simp only [jsDiv_fin_hundred, jsAdd_fin, jsMul_fin]
    rw [ih]
    congr 1
    · simp
    · apply List.map_congr_left
      intro k _
      have hy : year + 1 + k = year + (k + 1) := by omega
      have hr : r * (1 + inc / 100) * (1 + inc / 100) ^ k =
          r * (1 + inc / 100) ^ (k + 1) := by ring
      have he : e * (102 / 100) * (102 / 100) ^ k = e * (102 / 100) ^ (k + 1) := by
        ring
      simp [Function.comp, hy, hr, he]

/-- The call to `generateCashFlowSchedule` made by `calculateResults`,
with its two components named. -/
lemma cashFlowData_eq (i : Inputs) :
    cashFlowData i =
      (scheduleLoop (jsMul (monthlyPayment i) (JSNum.fin 12)) i.annualRentIncrease 1 30
        (jsMul (monthlyRentAfterVacancy i) (JSNum.fin 12))
        (jsMul (monthlyOperatingExpenses i) (JSNum.fin 12)),
       monthlyPayment i) := rfl

/-- The engine's schedule, fully evaluated: 30 entries, zero-based index
`k` standing for year `k + 1`. -/
lemma cashFlowSchedule_eq (i : Inputs) :
    (calculateResults i).cashFlowSchedule =
      (List.range 30).map (fun k =>
        { year := 1 + k
          rentalIncome := .fin (specMonthlyRentAfterVacancy i * 12 * (1 + i.annualRentIncrease / 100) ^ k)
          operatingExpenses := .fin (specMonthlyOperatingExpenses i * 12 * (102 / 100) ^ k)
          mortgagePayment := jsMul (monthlyPayment i) (JSNum.fin 12)
          cashFlow := jsSub (jsSub
            (.fin (specMonthlyRentAfterVacancy i * 12 * (1 + i.annualRentIncrease / 100) ^ k))
            (.fin (specMonthlyOperatingExpenses i * 12 * (102 / 100) ^ k)))
            (jsMul (monthlyPayment i) (JSNum.fin 12)) }) := by
  show (cashFlowData i).1 = _
  rw [cashFlowData_eq]
  rw [monthlyRentAfterVacancy_eq, monthlyOperatingExpenses_eq]
  simp only [jsMul_fin]
  rw [scheduleLoop_eq]

/-! Section: Concrete inputs used by counterexamples and witnesses -/

/-- The source's default input record (lines 38-63). -/
def i1 : Inputs :=
  { purchasePrice := 500000
    downPayment := 100000
    downPaymentType := .amount
    closingCosts := 5000
    renovationCosts := 0
    interestRate := 5.5
    amortizationPeriod := 25
    term := 5
    monthlyRent := 2500
    vacancyRate := 5
    annualRentIncrease := 2
    propertyTaxes := 5000
    insurance := 1500
    condoFees := 0
    propertyManagement := 8
    maintenance := 5
    utilities := 0
    otherExpenses := 0 }

/-- The default inputs with a zero interest rate. -/
def iZeroRate : Inputs := { i1 with interestRate := 0 }

/-- An input with a zero purchase price and a positive stated down-payment
amount. -/
def iBad : Inputs := { i1 with purchasePrice := 0 }

/-- An all-zero input (zero purchase price, down payment, closing and
renovation costs), giving a zero initial investment. -/
def iZeroInv : Inputs :=
  { purchasePrice := 0
    downPayment := 0
    downPaymentType := .amount
    closingCosts := 0
    renovationCosts := 0
    interestRate := 0
    amortizationPeriod := 25
    term := 5
    monthlyRent := 0
    vacancyRate := 0
    annualRentIncrease := 0
    propertyTaxes := 0
    insurance := 0
    condoFees := 0
    propertyManagement := 0
    maintenance := 0
    utilities := 0
    otherExpenses := 0 }

/-! Section: The claims -/

/-- Claim C1, as stated, is false: for an input with `purchasePrice = 0`
(and all other fields the source defaults) the engine does not
short-circuit with an `InvalidInput` error kind -- no error kind exists in
the code -- but returns a full result record whose `downPaymentPercent`
field is the non-finite value Infinity. -/
theorem claim_C1_counterexample :
    iBad.purchasePrice ≤ 0 ∧
      (calculateResults iBad).downPaymentPercent = JSNum.inf := by
  refine ⟨le_of_eq rfl, ?_⟩
  show actualDownPaymentPercent iBad = JSNum.inf
  rw [actualDownPaymentPercent, actualDownPayment_eq,
    show statedDownPayment iBad = 100000 from rfl,
    show iBad.purchasePrice = 0 from rfl,
    show max (100000 : ℚ) (20 / 100 * 0) = 100000 by norm_num,
    jsDiv_fin_zero_pos _ (by norm_num), jsMul_inf_fin_pos _ (by norm_num)]

/-- Claim C1, amended: `calculateResults` performs no input validation and
reports no error kind; for any input with `purchasePrice = 0`, a
down-payment stated as a positive amount makes the returned
`downPaymentPercent` the non-finite value Infinity (the division by the
zero purchase price propagates into the result record). -/
theorem claim_C1 (i : Inputs) (h0 : i.purchasePrice = 0)
    (ht : i.downPaymentType = DownPaymentType.amount) (hd : 0 < i.downPayment) :
    (calculateResults i).downPaymentPercent = JSNum.inf := by
  show actualDownPaymentPercent i = JSNum.inf
  have hs : statedDownPayment i = i.downPayment := by
    simp [statedDownPayment, ht]
  rw [actualDownPaymentPercent, actualDownPayment_eq, hs, h0]
  rw [show (20 : ℚ) / 100 * 0 = 0 by norm_num, max_eq_left hd.le]
  rw [jsDiv_fin_zero_pos _ hd, jsMul_inf_fin_pos _ (by norm_num)]

theorem claim_C1_witness :
    (calculateResults iBad).downPaymentPercent = JSNum.inf :=
  claim_C1 iBad rfl rfl (by norm_num [iBad, i1])

/-- Claim C2: with a positive purchase price the engine computes the
stated down-payment amount according to `downPaymentType`, floors it at 20
percent of the purchase price, reports the effective percentage, and sets
the mortgage amount to the purchase price minus the effective amount. -/
theorem claim_C2 (i : Inputs) (h : 0 < i.purchasePrice) :
    downPaymentAmount i = JSNum.fin (statedDownPayment i) ∧
    actualDownPayment i =
      JSNum.fin (max (statedDownPayment i) (20 / 100 * i.purchasePrice)) ∧
    (calculateResults i).downPaymentPercent =
      JSNum.fin (max (statedDownPayment i) (20 / 100 * i.purchasePrice) /
        i.purchasePrice * 100) ∧
    (calculateResults i).mortgageAmount =
      JSNum.fin (i.purchasePrice -
        max (statedDownPayment i) (20 / 100 * i.purchasePrice)) :=
  ⟨downPaymentAmount_eq i, actualDownPayment_eq i,
    actualDownPaymentPercent_eq i h.ne', mortgageAmount_eq i⟩

theorem claim_C2_witness :
    (0 : ℚ) < i1.purchasePrice ∧
      (calculateResults i1).downPaymentPercent =
        JSNum.fin (max (statedDownPayment i1) (20 / 100 * i1.purchasePrice) /
          i1.purchasePrice * 100) :=
  ⟨by norm_num [i1], (claim_C2 i1 (by norm_num [i1])).2.2.1⟩

/-- Claim C3: for every input the schedule has exactly 30 entries, the
year fields run strictly increasing from 1 to 30, and every entry's
`mortgagePayment` is the same constant `monthlyPayment * 12`. -/
theorem claim_C3 (i : Inputs) :
    ((calculateResults i).cashFlowSchedule).length = 30 ∧
    ((calculateResults i).cashFlowSchedule).map CashFlowEntry.year =
      List.range' 1 30 ∧
    ((calculateResults i).cashFlowSchedule).map CashFlowEntry.mortgagePayment =
      List.replicate 30
        (jsMul ((calculateResults i).monthlyPayment) (JSNum.fin 12)) := by
  rw [cashFlowSchedule_eq]
  refine ⟨by simp, ?_, ?_⟩
  · rw [List.map_map, List.range'_eq_map_range]
    rfl
  · rw [List.map_map]
    exact List.map_eq_replicate_iff.mpr (by simp; intro k hk; rfl)

/-- Claim C4: for every input, entry `k` (year `k + 1`) of the schedule
has rental income `monthlyRentAfterVacancy * 12` grown by
`(1 + annualRentIncrease/100)` compounding, operating expenses
`monthlyOperatingExpenses * 12` grown by `1.02` (= `102/100`) compounding,
and cash flow equal to rental income minus operating expenses minus
`12 * monthlyPayment`. -/
theorem claim_C4 (i : Inputs) :
    ((calculateResults i).cashFlowSchedule).map CashFlowEntry.rentalIncome =
      (List.range 30).map (fun k =>
        JSNum.fin (specMonthlyRentAfterVacancy i * 12 *
          (1 + i.annualRentIncrease / 100) ^ k)) ∧
    ((calculateResults i).cashFlowSchedule).map CashFlowEntry.operatingExpenses =
      (List.range 30).map (fun k =>
        JSNum.fin (specMonthlyOperatingExpenses i * 12 * (102 / 100) ^ k)) ∧
    ((calculateResults i).cashFlowSchedule).map CashFlowEntry.cashFlow =
      (List.range 30).map (fun k =>
        jsSub (jsSub
          (JSNum.fin (specMonthlyRentAfterVacancy i * 12 *
            (1 + i.annualRentIncrease / 100) ^ k))
          (JSNum.fin (specMonthlyOperatingExpenses i * 12 * (102 / 100) ^ k)))
          (jsMul (JSNum.fin 12) ((calculateResults i).monthlyPayment))) := by
  rw [cashFlowSchedule_eq]
  refine ⟨?_, ?_, ?_⟩ <;>
    rw [List.map_map] <;>
    refine List.map_congr_left (fun k _ => ?_)
  · rfl
  · rfl
  · show jsSub _ _ = jsSub _ _
    rw [jsMul_comm]
    rfl

/-- Claim C5: the monthly payment is `mortgageAmount / (amortizationPeriod * 12)`
when the interest rate is zero, and the standard fixed-payment amortization
formula with `r = interestRate/100/12` and `n = amortizationPeriod * 12`
otherwise. -/
theorem claim_C5 (i : Inputs) :
    (i.interestRate = 0 →
      (calculateResults i).monthlyPayment =
        jsDiv ((calculateResults i).mortgageAmount)
          (JSNum.fin ((i.amortizationPeriod * 12 : ℕ) : ℚ))) ∧
    (i.interestRate ≠ 0 →
      (calculateResults i).monthlyPayment =
        jsDiv
          (jsMul ((calculateResults i).mortgageAmount)
            (JSNum.fin (i.interestRate / 100 / 12 *
              (1 + i.interestRate / 100 / 12) ^ (i.amortizationPeriod * 12))))
          (JSNum.fin ((1 + i.interestRate / 100 / 12) ^ (i.amortizationPeriod * 12) - 1))) := by
  constructor <;> intro h <;> show monthlyPayment i = _
  · simp only [monthlyPayment, cashFlowData, generateCashFlowSchedule, h,
      if_true, if_pos]
    rfl
  · simp only [monthlyPayment, cashFlowData, generateCashFlowSchedule, h,
      if_false, if_neg, not_false_iff]
    simp only [jsDiv_fin_hundred, jsDiv_fin_twelve, jsAdd_fin, jsPow_fin,
      jsMul_fin, jsSub_fin]
    rfl

theorem claim_C5_witness :
    ((calculateResults iZeroRate).monthlyPayment =
      jsDiv ((calculateResults iZeroRate).mortgageAmount)
        (JSNum.fin ((iZeroRate.amortizationPeriod * 12 : ℕ) : ℚ))) ∧
    ((calculateResults i1).monthlyPayment =
      jsDiv
        (jsMul ((calculateResults i1).mortgageAmount)
          (JSNum.fin (i1.interestRate / 100 / 12 *
            (1 + i1.interestRate / 100 / 12) ^ (i1.amortizationPeriod * 12))))
        (JSNum.fin ((1 + i1.interestRate / 100 / 12) ^ (i1.amortizationPeriod * 12) - 1))) :=
  ⟨(claim_C5 iZeroRate).1 rfl, (claim_C5 i1).2 (by norm_num [i1])⟩

/-- Claim C6: with a positive purchase price and a non-negative stated
down payment, the reported effective down-payment percentage is at least 20. -/
theorem claim_C6 (i : Inputs) (h : 0 < i.purchasePrice) (hd : 0 ≤ i.downPayment) :
    ∃ q : ℚ, (calculateResults i).downPaymentPercent = JSNum.fin q ∧ 20 ≤ q := by
  refine ⟨_, actualDownPaymentPercent_eq i h.ne', ?_⟩
  have h1 : (20 / 100 * i.purchasePrice) / i.purchasePrice * 100 = 20 := by
    have hne := h.ne'
    field_simp
    ring
  calc (20 : ℚ)
      = (20 / 100 * i.purchasePrice) / i.purchasePrice * 100 := h1.symm
    _ ≤ max (statedDownPayment i) (20 / 100 * i.purchasePrice) /
          i.purchasePrice * 100 := by
        refine mul_le_mul_of_nonneg_right ?_ (by norm_num)
        exact (div_le_div_iff_of_pos_right h).mpr (le_max_right _ _)

theorem claim_C6_witness :
    ∃ q : ℚ, (calculateResults i1).downPaymentPercent = JSNum.fin q ∧ 20 ≤ q :=
  claim_C6 i1 (by norm_num [i1]) (by norm_num [i1])

/-- Claim C7: the initial investment is the effective down-payment amount
plus closing and renovation costs; the cash-on-cash return is
`annualCashFlow / initialInvestment * 100` when the initial investment is
positive and the defined number zero when it is zero. -/
theorem claim_C7 (i : Inputs) :
    initialInvestment i =
      JSNum.fin (max (statedDownPayment i) (20 / 100 * i.purchasePrice) +
        i.closingCosts + i.renovationCosts) ∧
    (0 < max (statedDownPayment i) (20 / 100 * i.purchasePrice) +
        i.closingCosts + i.renovationCosts →
      (calculateResults i).cashOnCash =
        jsMul (jsDiv (annualCashFlow i) (initialInvestment i)) (JSNum.fin 100)) ∧
    (max (statedDownPayment i) (20 / 100 * i.purchasePrice) +
        i.closingCosts + i.renovationCosts = 0 →
      (calculateResults i).cashOnCash = JSNum.fin 0) := by
  refine ⟨initialInvestment_eq i, ?_, ?_⟩ <;>
    intro h <;>
    show cashOnCash i = _ <;>
    simp [cashOnCash, initialInvestment_eq, jsGt_fin, h]

theorem claim_C7_witness :
    ((calculateResults i1).cashOnCash =
      jsMul (jsDiv (annualCashFlow i1) (initialInvestment i1)) (JSNum.fin 100)) ∧
    ((calculateResults iZeroInv).cashOnCash = JSNum.fin 0) :=
  ⟨(claim_C7 i1).2.1 (by norm_num [statedDownPayment, i1]),
   (claim_C7 iZeroInv).2.2 (by norm_num [statedDownPayment, iZeroInv])⟩

/-- Claim C8: the engine's monthly operating expenses equal the spec's sum
`propertyTaxes/12 + insurance/12 + condoFees + monthlyRent*propertyManagement/100
+ monthlyRent*maintenance/100 + utilities + otherExpenses`, with the
management and maintenance percentages applied to the gross monthly rent. -/
theorem claim_C8 (i : Inputs) :
    (calculateResults i).monthlyExpenses =
      JSNum.fin (specMonthlyOperatingExpenses i) :=
  monthlyOperatingExpenses_eq i

/-- Claim C9: converting a down-payment amount to a percent and back
(holding the purchase price fixed, with the `Math.round` calls of
`handleInputChange`) reproduces the original amount within the tolerance
the two roundings force: half a percentage point of the purchase price
plus half of the 100-dollar granularity. -/
theorem claim_C9 (purchasePrice downPayment : ℚ) (hpp : 0 < purchasePrice)
    (h0 : 0 ≤ downPayment) (h1 : downPayment ≤ purchasePrice) :
    |downPaymentToAmount purchasePrice (downPaymentToPercent purchasePrice downPayment) -
      downPayment| ≤ purchasePrice / 200 + 50 := by
  have hne := hpp.ne'
  set p := downPaymentToPercent purchasePrice downPayment with hpdef
  have hr1 : |p - downPayment / purchasePrice * 100| ≤ 1 / 2 :=
    abs_jsRound_sub_le _
  have hma : |purchasePrice * (p / 100) - downPayment| ≤ purchasePrice / 200 := by
    have hexp : purchasePrice * (p / 100) - downPayment =
        purchasePrice / 100 * (p - downPayment / purchasePrice * 100) := by
      field_simp
      ring
    rw [hexp, abs_mul, abs_of_pos (by positivity : (0 : ℚ) < purchasePrice / 100)]
    calc purchasePrice / 100 * |p - downPayment / purchasePrice * 100|
        ≤ purchasePrice / 100 * (1 / 2) :=
          mul_le_mul_of_nonneg_left hr1 (by positivity)
      _ = purchasePrice / 200 := by ring
  have hr2 : |jsRound (purchasePrice * (p / 100) / 100) -
      purchasePrice * (p / 100) / 100| ≤ 1 / 2 := abs_jsRound_sub_le _
  have hba : |downPaymentToAmount purchasePrice p - purchasePrice * (p / 100)| ≤ 50 := by
    have hexp : downPaymentToAmount purchasePrice p - purchasePrice * (p / 100) =
        (jsRound (purchasePrice * (p / 100) / 100) -
          purchasePrice * (p / 100) / 100) * 100 := by
      rw [downPaymentToAmount]
      ring
    rw [hexp, abs_mul, show |(100 : ℚ)| = 100 by norm_num]
    calc |jsRound (purchasePrice * (p / 100) / 100) -
          purchasePrice * (p / 100) / 100| * 100
        ≤ 1 / 2 * 100 := mul_le_mul_of_nonneg_right hr2 (by norm_num)
      _ = 50 := by norm_num
  calc |downPaymentToAmount purchasePrice p - downPayment|
      ≤ |downPaymentToAmount purchasePrice p - purchasePrice * (p / 100)| +
          |purchasePrice * (p / 100) - downPayment| :=
        abs_sub_le _ _ _
    _ ≤ 50 + purchasePrice / 200 := add_le_add hba hma
    _ = purchasePrice / 200 + 50 := by ring

theorem claim_C9_witness :
    |downPaymentToAmount 500000 (downPaymentToPercent 500000 123456) - 123456| ≤
      (500000 : ℚ) / 200 + 50 :=
  claim_C9 500000 123456 (by norm_num) (by norm_num) (by norm_num)

/-- Claim C10: with a positive purchase price and a non-negative stated
down payment, the mortgage amount is at most 80 percent of the purchase
price, and it is non-negative whenever the stated amount does not exceed
the purchase price. -/
theorem claim_C10 (i : Inputs) (h : 0 < i.purchasePrice)
    (hs : 0 ≤ statedDownPayment i) :
    ∃ q : ℚ, (calculateResults i).mortgageAmount = JSNum.fin q ∧
      q ≤ 4 / 5 * i.purchasePrice ∧
      (statedDownPayment i ≤ i.purchasePrice → 0 ≤ q) := by
  refine ⟨_, mortgageAmount_eq i, ?_, ?_⟩
  · have hmax : 20 / 100 * i.purchasePrice ≤
        max (statedDownPayment i) (20 / 100 * i.purchasePrice) :=
      le_max_right _ _
    linarith
  · intro hle
    have h2 : max (statedDownPayment i) (20 / 100 * i.purchasePrice) ≤
        i.purchasePrice := max_le hle (by linarith)
    linarith

theorem claim_C10_witness :
    ∃ q : ℚ, (calculateResults i1).mortgageAmount = JSNum.fin q ∧
      q ≤ 4 / 5 * i1.purchasePrice ∧
      (statedDownPayment i1 ≤ i1.purchasePrice → 0 ≤ q) :=
  claim_C10 i1 (by norm_num [i1]) (by norm_num [statedDownPayment, i1])

end RentalCalc
